import Mathlib

/-!
Verification of the message-routing / voice-selection core of the
Tf2Speech TTS utility (src/main_32bit_full.py).

Python strings are modelled as `List Char` so that every operation is a
structural recursion the kernel can evaluate.  Each definition carries a
comment pointing at the source lines it embeds.  Side effects on the
speech backends are modelled as an explicit effect list; the mutable
GUI/listbox state of `TTSReplicaWASAPI` is collected in `AppState`.
-/

/-- Python strings, modelled as lists of characters. -/
abbrev PyStr := List Char

/-- Turn a Lean string literal into a `PyStr`. -/
def pys (s : String) : PyStr := s.toList

/-- Python `\s` character class (ASCII part, which is all the app ever sees). -/
def isPySpace (c : Char) : Bool :=
  c = ' ' || c = '\t' || c = '\n' || c = '\r' || c = '\x0b' || c = '\x0c'

/-- Python `str.lower()` (ASCII case folding). -/
def pyLower (s : PyStr) : PyStr := s.map Char.toLower

/-- Python `str.strip()`: drop whitespace on both ends. -/
def pyStrip (s : PyStr) : PyStr :=
  ((s.dropWhile isPySpace).reverse.dropWhile isPySpace).reverse

/-- Python `str.lstrip('/')`. -/
def pyLstripSlash (s : PyStr) : PyStr := s.dropWhile (fun c => c = '/')

/-- Python truthiness of a string (`if s:`): empty string is falsy. -/
def pyTruthyStr (s : PyStr) : Bool := !s.isEmpty

/-- Python truthiness of an optional string (`None` and `""` are falsy). -/
def pyTruthy : Option PyStr → Bool
  | none => false
  | some s => pyTruthyStr s

/-- Python `needle in hay` substring test. -/
def isSubstr (n : PyStr) : PyStr → Bool
  | [] => n.isEmpty
  | c :: t => n.isPrefixOf (c :: t) || isSubstr n t

/-- Python `s.split(' ', 1)` step: text before the first space, and the
remainder after it when a space exists. -/
def splitOnce : PyStr → PyStr × Option PyStr
  | [] => ([], none)
  | c :: rest =>
    if c = ' ' then ([], some rest)
    else
      let p := splitOnce rest
      (c :: p.1, p.2)

/-- Python `s.split(' ', 2)`. -/
def pySplit2 (s : PyStr) : List PyStr :=
  let p1 := splitOnce s
  match p1.2 with
  | none => [p1.1]
  | some r =>
    let p2 := splitOnce r
    match p2.2 with
    | none => [p1.1, p2.1]
    | some r2 => [p1.1, p2.1, r2]

/-- First component of Python `s.split(' ')` (used for the bare-trigger check). -/
def firstWord (s : PyStr) : PyStr := (splitOnce s).1

/-- Lookup in a Python dict modelled as an insertion-ordered association list. -/
def pyLookup (k : PyStr) : List (PyStr × PyStr) → Option PyStr
  | [] => none
  | (k', v) :: rest => if k' = k then some v else pyLookup k rest

/-- Python dict assignment `d[k] = v`: overwrite in place, else append. -/
def dictInsert (k v : PyStr) : List (PyStr × PyStr) → List (PyStr × PyStr)
  | [] => [(k, v)]
  | (k', v') :: rest =>
    if k' = k then (k, v) :: rest else (k', v') :: dictInsert k v rest

/-- Lookup in the `announcement_enabled` config dict. -/
def pyLookupBool (k : PyStr) : List (PyStr × Bool) → Option Bool
  | [] => none
  | (k', v) :: rest => if k' = k then some v else pyLookupBool k rest

/-- The class `[a-zA-Z0-9_]` as used by the voice-command regexes. -/
def isWordChar (c : Char) : Bool := c.isAlpha || c.isDigit || c = '_'

/-- Regex `^/{lit}\s+(\d+)(?:\s+(.*))?$` (with `lit` a literal, `re.escape`d in
the source).  Returns the digit group and the (possibly empty) trailing-text
group.  The greedy `\s+`/`\d+` boundaries are deterministic because the
character classes are disjoint. -/
def matchCmdNumText (lit : PyStr) (s : PyStr) : Option (PyStr × PyStr) :=
  match s with
  | '/' :: rest =>
    if lit.isPrefixOf rest then
      let r1 := rest.drop lit.length
      let ws := r1.takeWhile isPySpace
      let r2 := r1.dropWhile isPySpace
      if ws.isEmpty then none
      else
        let ds := r2.takeWhile Char.isDigit
        let r3 := r2.dropWhile Char.isDigit
        if ds.isEmpty then none
        else
          match r3 with
          | [] => some (ds, [])
          | _ =>
            let ws2 := r3.takeWhile isPySpace
            if ws2.isEmpty then none
            else some (ds, r3.dropWhile isPySpace)
    else none
  | _ => none

/-- Regex `^/([a-zA-Z0-9_]+)(?:\s+(.*))?$` from `process_voice_command`. -/
def matchSlashTrigger (s : PyStr) : Option (PyStr × PyStr) :=
  match s with
  | '/' :: rest =>
    let tr := rest.takeWhile isWordChar
    let r2 := rest.dropWhile isWordChar
    if tr.isEmpty then none
    else
      match r2 with
      | [] => some (tr, [])
      | _ =>
        let ws := r2.takeWhile isPySpace
        if ws.isEmpty then none
        else some (tr, r2.dropWhile isPySpace)
  | _ => none

/-- Unanchored regex `^/v\s+\d+` (main_32bit_full.py:1805). -/
def startsVNum (s : PyStr) : Bool :=
  match s with
  | '/' :: 'v' :: r =>
    !(r.takeWhile isPySpace).isEmpty && !((r.dropWhile isPySpace).takeWhile Char.isDigit).isEmpty
  | _ => false

/-- A queued utterance (`{'text':..,'voice':..,'username':..}` dicts put on
`message_queue`). -/
structure Msg where
  text : PyStr
  voice : Option PyStr
  username : Option PyStr
deriving DecidableEq, Repr

/-- Observable side effects on the speech backends. -/
inductive Eff where
  /-- Backend call `audio_manager.stop()` (force_stop_tts, main_32bit_full.py:2452). -/
  | stop
  /-- Backend call `audio_manager.stop_all_speech()`. -/
  | stopAllSpeech
  /-- Backend call `dectalk_native.stop_speech()`. -/
  | dectalkStop
  /-- Engine call `apply_voice(v)` on the SAPI5 engine. -/
  | applyVoice (v : PyStr)
  /-- Engine call `apply_default_voice()`. -/
  | applyDefault
  /-- Backend call `audio_manager.speak(text, use_sync=False)`. -/
  | sapiSpeak (text : PyStr)
  /-- Backend call `dectalk_native.speak(text, profile, ...)`. -/
  | dectalkSpeak (text profileName : PyStr)
deriving DecidableEq, Repr

/-- The mutable state of `TTSReplicaWASAPI` that the routing core reads and
writes: listbox contents, the speech queue, the speaking cursor and the
persisted configuration.  `lastSpeaker = none` models the `last_speaker`
attribute never having been assigned (reading it then raises
`AttributeError`; `__init__` only creates the unused `last_speakers` dict,
main_32bit_full.py:243). -/
structure AppState where
  blocked : List PyStr
  admins : List PyStr
  autoBlockEnabled : Bool
  autoBlockKeywords : List PyStr
  queue : List Msg
  currentlySpeaking : Option PyStr
  lastSpeaker : Option PyStr
  userVoicePreferences : List (PyStr × PyStr)
  randomVoiceEnabled : Bool
  randomVoiceExclusions : List PyStr
  voiceCommands : List (PyStr × PyStr)
  dectalkProfiles : List PyStr
  voiceToggleCommand : PyStr
  ttsPrefixWord : PyStr
  privateMode : Bool
  announcementVoice : PyStr
  annEnabled : List (PyStr × Bool)
  announcements : List (PyStr × PyStr)
deriving DecidableEq, Repr

/-- Model of `get_announcement_text(announcement_type, username=...)`
(main_32bit_full.py:2366-2396, always called with `text=""`). -/
def get_announcement_text (st : AppState) (annType : PyStr) (username : Option PyStr) :
    Option PyStr :=
  let toggleKey := if annType = pys "AUTOBLOCK" then pys "AUTOBLOCK TRIGGERED" else annType
  if !((pyLookupBool toggleKey st.annEnabled).getD true) then none
  else
    let text := (pyLookup annType st.announcements).getD []
    if text.isEmpty then none
    else if pyTruthy username then some (username.getD [] ++ ' ' :: text)
    else some text

/-- Model of `speak(text, voice_name, username)` (main_32bit_full.py:2076-2081): enqueue
one utterance (the `audio_manager` is modelled as initialized). -/
def speakq (st : AppState) (text : PyStr) (voice : Option PyStr) (username : Option PyStr) :
    AppState :=
  { st with queue := st.queue ++ [⟨text, voice, username⟩] }

/-- Model of `clear_user_from_queue(username, add_to_blocked)`
(main_32bit_full.py:2319-2364): optionally add to the blocked listbox, stop
in-flight speech of that user with three retries, and drain-filter-requeue
the whole queue. -/
def clear_user_from_queue (st : AppState) (username : Option PyStr) (addToBlocked : Bool) :
    AppState × List Eff :=
  if !pyTruthy username then (st, [])
  else
    let u := username.getD []
    let blocked' :=
      if addToBlocked && !(st.blocked.contains u) then st.blocked ++ [u] else st.blocked
    let stopPart : Option PyStr × List Eff :=
      if st.currentlySpeaking = some u then
        (none, [Eff.stopAllSpeech, Eff.stopAllSpeech, Eff.stopAllSpeech])
      else (st.currentlySpeaking, [])
    let queue' := st.queue.filter (fun m => m.username != some u)
    ({ st with blocked := blocked', currentlySpeaking := stopPart.1, queue := queue' },
     stopPart.2)

/-- Model of `stop_all_speech` (main_32bit_full.py:2457-2477): stop both backends and
drain the queue. -/
def stop_all_speech (st : AppState) : AppState × List Eff :=
  ({ st with queue := [] }, [Eff.stopAllSpeech, Eff.dectalkStop])

/-- First matching auto-block keyword (main_32bit_full.py:1576-1577):
case-insensitive substring test, skipping empty keywords, first match wins. -/
def findKeyword (keywords : List PyStr) (messageLower : PyStr) : Option PyStr :=
  keywords.find? (fun k => !k.isEmpty && isSubstr (pyLower k) messageLower)

/-- The pool `available_voices` built by `get_random_voice_for_user`
(main_32bit_full.py:807-821): non-empty mapped SAPI voices from
`voice_commands` plus `[DECtalk] `-prefixed profile names, minus the
exclusion set. -/
def availableVoices (st : AppState) : List PyStr :=
  let fromCmds :=
    (st.voiceCommands.filter
      (fun p => !p.2.isEmpty && !(pyStrip p.2).isEmpty && !(st.randomVoiceExclusions.contains p.2))).map
      (fun p => p.2)
  let fromDectalk :=
    if !st.dectalkProfiles.isEmpty then
      (st.dectalkProfiles.map (fun p => pys "[DECtalk] " ++ p)).filter
        (fun v => !(st.randomVoiceExclusions.contains v))
    else []
  fromCmds ++ fromDectalk

/-- Model of `get_random_voice_for_user(username)` (main_32bit_full.py:803-840).
`random.choice` is modelled by an oracle index `rand` reduced modulo the pool
size.  On an empty pool it returns `None` (with a logged warning); otherwise
the draw is persisted as the user's preference before being returned. -/
def get_random_voice_for_user (st : AppState) (username : PyStr) (rand : Nat) :
    AppState × Option PyStr :=
  let avail := availableVoices st
  if avail.isEmpty then (st, none)
  else
    let chosen := avail.getD (rand % avail.length) []
    ({ st with userVoicePreferences := dictInsert username chosen st.userVoicePreferences },
     some chosen)

/-- Model of `process_voice_command(message, username)` (main_32bit_full.py:1837-2020).
Only enqueues utterances and updates the persisted preference map; it never
touches the backends directly. -/
def process_voice_command (st : AppState) (message : PyStr) (username : Option PyStr) :
    AppState :=
  if message.head? = some '/' then
    let toggle := pyLstripSlash st.voiceToggleCommand
    match matchCmdNumText toggle message with
    | some (num, text) =>
      -- user voice toggle `/vt N [text]` (lines 1844-1897)
      let cmd := 'v' :: ' ' :: num
      if pyTruthy username && (pyLookup cmd st.voiceCommands).isSome then
        let voiceName := (pyLookup cmd st.voiceCommands).getD []
        if voiceName.isEmpty then
          if !text.isEmpty then speakq st text none username else st
        else
          let st1 :=
            { st with userVoicePreferences :=
                dictInsert (username.getD []) voiceName st.userVoicePreferences }
          if !text.isEmpty then speakq st1 text (some voiceName) username else st1
      else
        if !text.isEmpty then speakq st text none username else st
    | none =>
      match matchCmdNumText (pys "v") message with
      | some (num, text) =>
        -- `/v N [text]` (lines 1899-1926)
        let cmd := 'v' :: ' ' :: num
        match pyLookup cmd st.voiceCommands with
        | some voiceName =>
          if !text.isEmpty then speakq st text (some voiceName) username else st
        | none =>
          if !text.isEmpty then speakq st text none username else st
      | none =>
        match matchSlashTrigger message with
        | some (trigger, text) =>
          -- `/{trigger} [text]` (lines 1928-1975)
          match pyLookup trigger st.voiceCommands with
          | some voiceName =>
            if !text.isEmpty then speakq st text (some voiceName) username else st
          | none =>
            if trigger.head? = some 'v' && trigger.length > 1 then
              let legacyCmd := 'v' :: ' ' :: trigger.tail
              match pyLookup legacyCmd st.voiceCommands with
              | some voiceName =>
                if !text.isEmpty then speakq st text (some voiceName) username else st
              | none =>
                if !text.isEmpty then speakq st text none username else st
            else
              -- unknown trigger: `self.speak(original_message)` (line 1975)
              speakq st message none none
        | none =>
          -- slash but no valid pattern: `self.speak(original_message)` (line 1978)
          speakq st message none none
  else if (pys "v ").isPrefixOf message then
    -- legacy `v N [text]` (lines 1981-2004)
    let parts := pySplit2 message
    if parts.length ≥ 2 then
      let num := parts.getD 1 []
      let cmd := 'v' :: ' ' :: num
      let text := if parts.length > 2 then parts.getD 2 [] else []
      match pyLookup cmd st.voiceCommands with
      | some voiceName =>
        if !text.isEmpty then speakq st text (some voiceName) username else st
      | none =>
        -- unmapped: `self.speak(text)` carries no username (line 2000)
        if !text.isEmpty then speakq st text none none else st
    else
      speakq st message none none
  else
    -- bare custom command without slash (lines 2006-2020)
    let parts1 := splitOnce message
    match pyLookup parts1.1 st.voiceCommands with
    | some voiceName =>
      let text := (parts1.2).getD []
      if !text.isEmpty then speakq st text (some voiceName) username else st
    | none =>
      speakq st message none username

/-- The caller-side check for `/{trigger}` voice commands
(main_32bit_full.py:1810-1820): a leading slash followed by word characters
whose run is either a known trigger or `v` plus digits. -/
def slashTriggerHit (st : AppState) (message : PyStr) : Bool :=
  match message with
  | '/' :: rest =>
    let tr := rest.takeWhile isWordChar
    !tr.isEmpty &&
      ((pyLookup tr st.voiceCommands).isSome ||
       (tr.head? = some 'v' && !tr.tail.isEmpty && tr.tail.all Char.isDigit))
  | _ => false

/-- The legacy `v N` caller-side check (main_32bit_full.py:1823):
`message.startswith('v ') and len(message) > 2 and message[2].isdigit()`. -/
def legacyVHit (message : PyStr) : Bool :=
  match message with
  | 'v' :: ' ' :: c :: _ => c.isDigit
  | _ => false

/-- Insert an announcement (when enabled and configured) at the front of the
queue via the drain-put-requeue idiom used at main_32bit_full.py:1586-1600,
1652-1669, 1687-1701 and 1719-1733. -/
def queueAnnouncementFront (st : AppState) (annType : PyStr) (username : Option PyStr) :
    AppState :=
  match get_announcement_text st annType username with
  | some t =>
    { st with queue := ⟨t, some st.announcementVoice, some (pys "__announcement__")⟩ :: st.queue }
  | none => st

/-- The tail of `on_chat_message` from the TTS-prefix branch onward
(main_32bit_full.py:1738-1835): prefixed speak/voice-command handling, the
private-mode gate, and the non-prefixed voice-command patterns. -/
def chatTail (st : AppState) (username message : PyStr) (rand : Nat) :
    AppState × List Eff :=
  let trigger := st.ttsPrefixWord ++ [' ']
  if trigger.isPrefixOf message then
    -- lines 1743-1792
    let textToSpeak := pyStrip (message.drop trigger.length)
    if st.privateMode && !(st.admins.contains username) then (st, [])
    else
      let step : AppState × List Eff :=
        if textToSpeak.head? = some '/' then
          (process_voice_command st textToSpeak (some username), [])
        else if (pys "v ").isPrefixOf textToSpeak then
          (process_voice_command st textToSpeak (some username), [])
        else if pyTruthyStr username && (pyLookup username st.userVoicePreferences).isSome then
          (speakq st textToSpeak (pyLookup username st.userVoicePreferences) (some username), [])
        else if pyTruthyStr username && st.randomVoiceEnabled then
          match get_random_voice_for_user st username rand with
          | (st', some rv) => (speakq st' textToSpeak (some rv) (some username), [])
          | (st', none) => (speakq st' textToSpeak none (some username), [Eff.applyDefault])
        else
          (speakq st textToSpeak none (some username), [Eff.applyDefault])
      ({ step.1 with lastSpeaker := some username }, step.2)
  else if st.privateMode && !(st.admins.contains username) then
    -- lines 1795-1799
    (st, [])
  else if startsVNum message then
    -- line 1805
    (process_voice_command st message (some username), [])
  else if slashTriggerHit st message then
    -- lines 1810-1820
    (process_voice_command st message (some username), [])
  else if legacyVHit message then
    -- line 1823
    (process_voice_command st message (some username), [])
  else if (pyLookup (firstWord message) st.voiceCommands).isSome then
    -- lines 1828-1831
    (process_voice_command st message (some username), [])
  else
    -- lines 1833-1835: plain chat is never spoken
    (st, [])

/-- Model of `on_chat_message` from the `!block clear` handler onward
(main_32bit_full.py:1706-1835).  A non-admin `!block clear` does not return:
it falls through to `chatTail`. -/
def chatFromBlockClear (st : AppState) (username message : PyStr) (rand : Nat) :
    AppState × List Eff :=
  if pyStrip (pyLower message) = pys "!block clear" then
    if st.admins.contains username then
      if st.blocked.length > 0 then
        let lastUser := st.blocked.getLastD []
        let st1 := { st with blocked := st.blocked.dropLast }
        (queueAnnouncementFront st1 (pys "BLOCK REMOVE") (some lastUser), [])
      else (st, [])
    else chatTail st username message rand
  else chatTail st username message rand

/-- Model of `on_chat_message(msg)` (main_32bit_full.py:1541-1835), for an event with
the given `username` and raw `message` text (GUI display omitted).  `rand` is
the oracle for `random.choice`.  The `Except` error models an uncaught Python
exception escaping the handler (the log-monitor loop catches and logs it,
main_32bit_full.py:193-196). -/
def on_chat_message (st : AppState) (username msgRaw : PyStr) (rand : Nat) :
    Except PyStr (AppState × List Eff) :=
  -- FIRST: blocked check (lines 1566-1570)
  if st.blocked.contains username then .ok (st, [])
  else
    -- SECOND: auto-block keywords (lines 1572-1604)
    match (if st.autoBlockEnabled then findKeyword st.autoBlockKeywords (pyLower msgRaw) else none) with
    | some _ =>
      let r := clear_user_from_queue st (some username) true
      .ok (queueAnnouncementFront r.1 (pys "AUTOBLOCK") (some username), r.2)
    | none =>
      let message := pyStrip msgRaw
      let mls := pyStrip (pyLower message)
      let isAdmin := st.admins.contains username
      -- `{prefix} stop` (lines 1610-1619)
      if mls = pyLower (st.ttsPrefixWord ++ pys " stop") then
        if isAdmin then .ok (st, [Eff.stop]) else .ok (st, [])
      -- `!stop` (lines 1621-1632)
      else if mls = pys "!stop" then
        if isAdmin then .ok (stop_all_speech st) else .ok (st, [])
      -- `!block` / `!block add` (lines 1634-1674)
      else if mls = pys "!block add" || mls = pys "!block" then
        if isAdmin then
          match st.lastSpeaker with
          | none => .error (pys "AttributeError: last_speaker")
          | some ls =>
            let userToBlock : Option PyStr :=
              if pyTruthy st.currentlySpeaking then st.currentlySpeaking else some ls
            if pyTruthy userToBlock && userToBlock ≠ some username then
              let r := clear_user_from_queue st userToBlock true
              .ok (queueAnnouncementFront r.1 (pys "BLOCK ADD") userToBlock, r.2)
            else .ok (st, [])
        else .ok (st, [])
      -- `!admin add` (lines 1676-1704): no return on the non-admin path
      else if mls = pys "!admin add" then
        if isAdmin then
          match st.lastSpeaker with
          | none => .error (pys "AttributeError: last_speaker")
          | some ls =>
            if pyTruthyStr ls && ls ≠ username then
              let st1 := { st with admins := st.admins ++ [ls] }
              .ok (queueAnnouncementFront st1 (pys "ADMIN ADD") (some ls), [])
            else .ok (st, [])
        else .ok (chatFromBlockClear st username message rand)
      else .ok (chatFromBlockClear st username message rand)

/-- Which voice-engine call the worker makes before speaking a dequeued
message. -/
inductive Applied where
  | voice (v : PyStr)
  | dflt
deriving DecidableEq, Repr

/-- The voice-resolution step of the queue worker
(main_32bit_full.py:2175-2198): explicit message voice, else persisted
per-user preference, else (under random assignment) a fresh persisted draw,
else the default voice. -/
def resolveVoice (st : AppState) (rand : Nat) (msgVoice : Option PyStr)
    (username : Option PyStr) : AppState × Applied :=
  if pyTruthy msgVoice then (st, .voice (msgVoice.getD []))
  else
    let u := username.getD []
    if pyTruthy username && (pyLookup u st.userVoicePreferences).isSome then
      (st, .voice ((pyLookup u st.userVoicePreferences).getD []))
    else if pyTruthy username && st.randomVoiceEnabled then
      match get_random_voice_for_user st u rand with
      | (st', some rv) =>
        if pyTruthyStr rv then (st', .voice rv) else (st', .dflt)
      | (st', none) => (st', .dflt)
    else (st, .dflt)

/-- What the worker's completion-wait loop observes on one poll: the backend
`is_speaking()` flag and the shared blocked list / speaking cursor, which the
GUI and chat threads mutate out of band. -/
structure PollObs where
  isSpeaking : Bool
  blockedNow : List PyStr
  currentlySpeakingNow : Option PyStr

/-- How one wait iteration ended. -/
inductive WaitOutcome where
  | completed
  | blockedStop
  | interruptedStop
  | timeout
deriving DecidableEq, Repr

/-- Python `username in blocked_users` where `username` may be `None`. -/
def memOptUser (u : Option PyStr) (blockedUsers : List PyStr) : Bool :=
  match u with
  | none => false
  | some s => blockedUsers.contains s

/-- The completion-wait loop of `process_speech_queue`
(main_32bit_full.py:2272-2300): poll every 50 ms while `wait_time < 60` s
(so at most 1200 polls, counted by `remaining`), break when the backend goes
quiet, when the speaking user turns up blocked, or when the speaking cursor
was cleared out of band.  Returns the outcome and the exit poll index.
Falling out at the ceiling returns `timeout` — the source forces no stop
there. -/
def waitLoop (env : Nat → PollObs) (uname : Option PyStr) : Nat → Nat → WaitOutcome × Nat
  | t, 0 => (.timeout, t)
  | t, remaining + 1 =>
    if !(env t).isSpeaking then (.completed, t)
    else if memOptUser uname (env t).blockedNow then (.blockedStop, t)
    else if (env t).currentlySpeakingNow ≠ uname then (.interruptedStop, t)
    else waitLoop env uname (t + 1) remaining

/-- The DECtalk marker on stored voice names. -/
def dectalkTag : PyStr := pys "[DECtalk] "

/-- One iteration of the queue worker on an already-popped message `m`
(main_32bit_full.py:2166-2304): skip if the sender is now blocked, set the
speaking cursor, resolve and apply a voice, dispatch to DECtalk (synchronous)
or SAPI5 (asynchronous, followed by the wait loop), and clear the cursor.
`env` supplies the wait loop's view of the shared state on each poll. -/
def workerProcessOne (st : AppState) (m : Msg) (rand : Nat) (env : Nat → PollObs) :
    AppState × List Eff :=
  if memOptUser m.username st.blocked then (st, [])
  else
    let st1 := { st with currentlySpeaking := m.username }
    let r := resolveVoice st1 rand m.voice m.username
    let st2 := r.1
    let applyEff :=
      match r.2 with
      | .voice v => [Eff.applyVoice v]
      | .dflt => [Eff.applyDefault]
    -- lines 2200-2212: DECtalk preference promotion when the message has no voice
    let currentVoice : Option PyStr :=
      if pyTruthy m.voice then m.voice
      else
        match m.username with
        | some u =>
          if pyTruthyStr u then
            match pyLookup u st2.userVoicePreferences with
            | some uv => if dectalkTag.isPrefixOf uv then some uv else m.voice
            | none => m.voice
          else m.voice
        | none => m.voice
    if pyTruthy currentVoice && dectalkTag.isPrefixOf (currentVoice.getD []) then
      -- lines 2216-2266: native DECtalk renders synchronously; no wait loop
      let profileName := (currentVoice.getD []).drop dectalkTag.length
      let st3 :=
        if st2.currentlySpeaking = m.username then
          { st2 with currentlySpeaking := none }
        else st2
      (st3, applyEff ++ [Eff.dectalkSpeak m.text profileName])
    else
      -- lines 2267-2304: SAPI5 speech then the polling wait
      let w := waitLoop env m.username 0 1200
      match w.1 with
      | .completed =>
        let st3 :=
          if st2.currentlySpeaking = m.username then
            { st2 with currentlySpeaking := none }
          else st2
        (st3, applyEff ++ [Eff.sapiSpeak m.text])
      | .timeout =>
        -- ceiling hit: the loop just falls out; no forced stop in the source
        let st3 :=
          if st2.currentlySpeaking = m.username then
            { st2 with currentlySpeaking := none }
          else st2
        (st3, applyEff ++ [Eff.sapiSpeak m.text])
      | .blockedStop =>
        -- lines 2288-2294: stop, then clear_user_from_queue(username, False)
        let r2 := clear_user_from_queue st2 m.username false
        (r2.1, applyEff ++ [Eff.sapiSpeak m.text, Eff.stopAllSpeech] ++ r2.2)
      | .interruptedStop =>
        -- lines 2296-2300: the cursor was cleared/overwritten out of band
        let st3 := { st2 with currentlySpeaking := (env w.2).currentlySpeakingNow }
        (st3, applyEff ++ [Eff.sapiSpeak m.text, Eff.stopAllSpeech])

/-! ### Helper lemmas -/

/-- Lowercasing the literal `" stop"` is the identity. -/
lemma pyLower_space_stop : pyLower (pys " stop") = pys " stop" := by decide

/-- Lowercasing distributes over append. -/
lemma pyLower_append (a b : PyStr) : pyLower (a ++ b) = pyLower a ++ pyLower b :=
  List.map_append _ a b

/-- The lowercase of any `"{prefix} stop"` command ends in `'p'`. -/
lemma lower_stop_reverse_head (p : PyStr) :
    (pyLower (p ++ pys " stop")).reverse.head? = some 'p' := by
  rw [pyLower_append, pyLower_space_stop, List.reverse_append]
  rfl

/-- A string whose last character is not `'p'` is not a `"{prefix} stop"`
command, for any prefix. -/
lemma ne_pyLower_append_stop (s p : PyStr) (h : s.reverse.head? ≠ some 'p') :
    s ≠ pyLower (p ++ pys " stop") := by
  intro he
  exact h (he ▸ lower_stop_reverse_head p)

/-- A list extended with an element contains it. -/
lemma contains_append_singleton (l : List PyStr) (u : PyStr) :
    (l ++ [u]).contains u = true := by
  induction l with
  | nil => simp [List.contains]
  | cons a t ih =>
    simp only [List.cons_append, List.contains_cons]
    simp [ih]

/-- Inserting then looking up the same key returns the inserted value. -/
lemma pyLookup_dictInsert_self (k v : PyStr) (l : List (PyStr × PyStr)) :
    pyLookup k (dictInsert k v l) = some v := by
  induction l with
  | nil => simp [dictInsert, pyLookup]
  | cons p t ih =>
    by_cases h : p.1 = k
    · simp [dictInsert, pyLookup, h]
    · simp [dictInsert, pyLookup, h, ih]

/-- Every voice in the random-assignment pool is a non-empty string. -/
lemma mem_availableVoices_ne_nil (st : AppState) (v : PyStr)
    (h : v ∈ availableVoices st) : v ≠ [] := by
  unfold availableVoices at h
  rcases List.mem_append.mp h with h1 | h2
  · rcases List.mem_map.mp h1 with ⟨p, hp, rfl⟩
    have := (List.mem_filter.mp hp).2
    simp only [Bool.and_eq_true, Bool.not_eq_true'] at this
    intro hnil
    rw [hnil] at this
    simp [List.isEmpty] at this
  · by_cases hd : st.dectalkProfiles.isEmpty
    · simp [hd] at h2
    · simp only [hd, Bool.not_false, if_pos] at h2
      rcases List.mem_filter.mp h2 with ⟨hmem, _⟩
      rcases List.mem_map.mp hmem with ⟨p, _, rfl⟩
      simp [pys]

/-- Indexing into a non-empty list with `getD` lands in the list. -/
lemma getD_mod_mem (l : List PyStr) (h : l ≠ []) (i : Nat) :
    l.getD (i % l.length) [] ∈ l := by
  have hlen : 0 < l.length := List.length_pos.mpr h
  have hlt : i % l.length < l.length := Nat.mod_lt _ hlen
  rw [List.getD_eq_getElem l [] hlt]
  exact List.getElem_mem hlt

/-- Stepping lemma: past the blocked check, the auto-block scan and the first
four moderation rules, `on_chat_message` is the `!block clear`-onward tail. -/
lemma on_chat_message_eq_fromBlockClear (st : AppState) (u m0 : PyStr) (rand : Nat)
    (hb : u ∉ st.blocked)
    (hscan : (if st.autoBlockEnabled then findKeyword st.autoBlockKeywords (pyLower m0)
              else none) = none)
    (h1 : pyStrip (pyLower (pyStrip m0)) ≠ pyLower (st.ttsPrefixWord ++ pys " stop"))
    (h2 : pyStrip (pyLower (pyStrip m0)) ≠ pys "!stop")
    (h3 : pyStrip (pyLower (pyStrip m0)) ≠ pys "!block add")
    (h4 : pyStrip (pyLower (pyStrip m0)) ≠ pys "!block")
    (h5 : pyStrip (pyLower (pyStrip m0)) ≠ pys "!admin add") :
    on_chat_message st u m0 rand = .ok (chatFromBlockClear st u (pyStrip m0) rand) := by
  unfold on_chat_message
  simp [hb, hscan, h1, h2, h3, h4, h5]

/-- A message that is not `!block clear` skips that handler. -/
lemma chatFromBlockClear_eq_tail (st : AppState) (u message : PyStr) (rand : Nat)
    (h : pyStrip (pyLower message) ≠ pys "!block clear") :
    chatFromBlockClear st u message rand = chatTail st u message rand := by
  unfold chatFromBlockClear
  rw [if_neg h]

/-- A non-admin `!block clear` (or any other message) falls through to the
tail: the handler returns only on the admin path. -/
lemma chatFromBlockClear_eq_tail_nonadmin (st : AppState) (u message : PyStr) (rand : Nat)
    (h : u ∉ st.admins) :
    chatFromBlockClear st u message rand = chatTail st u message rand := by
  unfold chatFromBlockClear
  by_cases hm : pyStrip (pyLower message) = pys "!block clear"
  · simp [hm, h]
  · simp [hm]

/-- The private-mode gate: a non-admin's message (prefixed or not) is dropped. -/
lemma chatTail_private (st : AppState) (u message : PyStr) (rand : Nat)
    (hpm : st.privateMode = true) (hadm : u ∉ st.admins) :
    chatTail st u message rand = (st, []) := by
  unfold chatTail
  by_cases hpre : (st.ttsPrefixWord ++ [' ']).isPrefixOf message
  · simp [hpre, hpm, hadm]
  · simp [hpre, hpm, hadm]

/-- Plain chat: no prefix and no voice-command pattern means no action at all. -/
lemma chatTail_ignore (st : AppState) (u message : PyStr) (rand : Nat)
    (h7 : (st.ttsPrefixWord ++ [' ']).isPrefixOf message = false)
    (h8 : startsVNum message = false)
    (h9 : slashTriggerHit st message = false)
    (h10 : legacyVHit message = false)
    (h11 : pyLookup (firstWord message) st.voiceCommands = none) :
    chatTail st u message rand = (st, []) := by
  unfold chatTail
  simp [h7, h8, h9, h10, h11]

/-- If every poll sees a busy backend, an unblocked user and an untouched
speaking cursor, the wait loop runs its full budget and falls out with
`timeout`. -/
lemma waitLoop_timeout_of_busy (env : Nat → PollObs) (uname : Option PyStr)
    (hbusy : ∀ i, (env i).isSpeaking = true ∧ memOptUser uname (env i).blockedNow = false ∧
      (env i).currentlySpeakingNow = uname) :
    ∀ (r t : Nat), waitLoop env uname t r = (.timeout, t + r) := by
  intro r
  induction r with
  | zero => intro t; simp [waitLoop]
  | succ n ih =>
    intro t
    rcases hbusy t with ⟨hs, hb, hc⟩
    simp only [waitLoop, hs, hb, hc, Bool.not_true, Bool.false_eq_true, if_false, ne_eq,
      not_true_eq_false, ite_false]
    rw [ih (t + 1)]
    simp only [Prod.mk.injEq]
    exact ⟨trivial, by omega⟩

/-- A non-empty string is truthy. -/
lemma pyTruthy_some_of_ne (u : PyStr) (h : u ≠ []) : pyTruthy (some u) = true := by
  cases u with
  | nil => exact absurd rfl h
  | cons c t => rfl

/-- Claim C2: blocking a user (the `clear_user_from_queue` path used by both
manual `!block` and auto-block) leaves zero queued utterances from that user,
keeps the survivors in order (a single drain-filter-requeue pass), retries the
backend stop exactly 3 times when that user is in flight (clearing the
speaking cursor), and the queue worker independently discards a popped
message whose sender is in the blocked set, producing no speech. -/
theorem C2_block_purges_queue_and_worker_skips :
    (∀ (st : AppState) (u : PyStr), u ≠ [] →
      ((clear_user_from_queue st (some u) true).1.queue
          = st.queue.filter (fun m => m.username != some u))
      ∧ (∀ m ∈ (clear_user_from_queue st (some u) true).1.queue, m.username ≠ some u)
      ∧ u ∈ (clear_user_from_queue st (some u) true).1.blocked
      ∧ (st.currentlySpeaking = some u →
          (clear_user_from_queue st (some u) true).2
              = [Eff.stopAllSpeech, Eff.stopAllSpeech, Eff.stopAllSpeech]
          ∧ (clear_user_from_queue st (some u) true).1.currentlySpeaking = none))
    ∧ (∀ (st : AppState) (m : Msg) (rand : Nat) (env : Nat → PollObs),
        memOptUser m.username st.blocked = true →
        workerProcessOne st m rand env = (st, [])) := by
  constructor
  · intro st u hu
    have htr : pyTruthy (some u) = true := pyTruthy_some_of_ne u hu
    refine ⟨?_, ?_, ?_, ?_⟩
    · simp [clear_user_from_queue, htr]
    · intro m hm
      simp only [clear_user_from_queue, htr, Bool.not_true, Bool.false_eq_true, if_false] at hm
      simpa using (List.mem_filter.mp hm).2
    · by_cases hc : u ∈ st.blocked
      · simp [clear_user_from_queue, htr, hc]
      · simp [clear_user_from_queue, htr, hc]
    · intro hcs
      constructor
      · simp [clear_user_from_queue, htr, hcs]
      · simp [clear_user_from_queue, htr, hcs]
  · intro st m rand env h
    simp [workerProcessOne, h]

/-- Concrete state for the C2 witness: Bob is mid-utterance with another
queued message, Eve is already blocked. -/
def stC2ex : AppState where
  blocked := [pys "Eve"]
  admins := [pys "Al"]
  autoBlockEnabled := true
  autoBlockKeywords := []
  queue := [⟨pys "one", none, some (pys "Bob")⟩, ⟨pys "two", none, some (pys "Cat")⟩,
            ⟨pys "three", none, some (pys "Bob")⟩]
  currentlySpeaking := some (pys "Bob")
  lastSpeaker := some (pys "Bob")
  userVoicePreferences := []
  randomVoiceEnabled := false
  randomVoiceExclusions := []
  voiceCommands := [(pys "v 0", pys "Microsoft Sam")]
  dectalkProfiles := []
  voiceToggleCommand := pys "/vt"
  ttsPrefixWord := pys "!tts"
  privateMode := false
  announcementVoice := pys "Sam"
  annEnabled := []
  announcements := []

theorem C2_witness :
    ((clear_user_from_queue stC2ex (some (pys "Bob")) true).1.queue
        = stC2ex.queue.filter (fun m => m.username != some (pys "Bob")))
    ∧ pys "Bob" ∈ (clear_user_from_queue stC2ex (some (pys "Bob")) true).1.blocked
    ∧ (clear_user_from_queue stC2ex (some (pys "Bob")) true).2
        = [Eff.stopAllSpeech, Eff.stopAllSpeech, Eff.stopAllSpeech]
    ∧ workerProcessOne stC2ex ⟨pys "x", none, some (pys "Eve")⟩ 0
        (fun _ => ⟨false, [], none⟩) = (stC2ex, []) := by
  have h := C2_block_purges_queue_and_worker_skips
  have h1 := h.1 stC2ex (pys "Bob") (by decide)
  exact ⟨h1.1, h1.2.2.1, (h1.2.2.2 (by decide)).1,
    h.2 stC2ex ⟨pys "x", none, some (pys "Eve")⟩ 0 (fun _ => ⟨false, [], none⟩) (by decide)⟩

/-- Claim C6: worker voice resolution with no explicit override is idempotent
— a second resolution (with any fresh randomness) returns the same voice and
leaves the state unchanged, because a random draw is persisted as the user's
preference on the first call and never re-rolled — and when random assignment
is on but the eligible pool after exclusions is empty, resolution falls
through to the default voice instead of failing. -/
theorem C6_resolution_idempotent_and_empty_pool_default :
    (∀ (st : AppState) (u : PyStr) (r1 r2 : Nat), u ≠ [] →
      (resolveVoice (resolveVoice st r1 none (some u)).1 r2 none (some u)).2
          = (resolveVoice st r1 none (some u)).2
      ∧ (resolveVoice (resolveVoice st r1 none (some u)).1 r2 none (some u)).1
          = (resolveVoice st r1 none (some u)).1)
    ∧ (∀ (st : AppState) (u : PyStr) (r : Nat), u ≠ [] →
      pyLookup u st.userVoicePreferences = none → st.randomVoiceEnabled = true →
      availableVoices st = [] →
      resolveVoice st r none (some u) = (st, .dflt)) := by
  constructor
  · intro st u r1 r2 hu
    have htr : pyTruthy (some u) = true := pyTruthy_some_of_ne u hu
    have htr2 : pyTruthyStr u = true := htr
    by_cases hp : (pyLookup u st.userVoicePreferences).isSome
    · constructor <;> simp [resolveVoice, pyTruthy, htr, htr2, hp]
    · by_cases hr : st.randomVoiceEnabled
      · by_cases ha : (availableVoices st).isEmpty
        · constructor <;>
            simp [resolveVoice, pyTruthy, htr, htr2, hp, hr, get_random_voice_for_user, ha]
        · have hne : availableVoices st ≠ [] := by
            intro h0
            rw [h0] at ha
            exact ha rfl
          have hch : (availableVoices st).getD (r1 % (availableVoices st).length) []
              ∈ availableVoices st := getD_mod_mem _ hne r1
          have hcne := mem_availableVoices_ne_nil st _ hch
          have htrc : pyTruthyStr ((availableVoices st).getD (r1 % (availableVoices st).length) [])
              = true := by
            cases hcc : (availableVoices st).getD (r1 % (availableVoices st).length) [] with
            | nil => exact absurd hcc hcne
            | cons c t => rfl
          simp only [List.getD_eq_getElem?_getD] at htrc
          constructor <;>
            simp [resolveVoice, pyTruthy, htr, htr2, hp, hr, get_random_voice_for_user, ha, htrc,
              pyLookup_dictInsert_self]
      · constructor <;> simp [resolveVoice, pyTruthy, htr, htr2, hp, hr]
  · intro st u r hu hp hr ha
    have htr : pyTruthy (some u) = true := pyTruthy_some_of_ne u hu
    have htr2 : pyTruthyStr u = true := htr
    simp [resolveVoice, pyTruthy, htr, htr2, hp, hr, get_random_voice_for_user, ha]

/-- Concrete state for the C6 witness: random assignment enabled; in
`stC6empty` every candidate voice is excluded so the pool is empty. -/
def stC6ex : AppState :=
  { stC2ex with randomVoiceEnabled := true, userVoicePreferences := [] }

def stC6empty : AppState :=
  { stC6ex with randomVoiceExclusions := [pys "Microsoft Sam"] }

theorem C6_witness :
    ((resolveVoice (resolveVoice stC6ex 7 none (some (pys "Bob"))).1 11 none
        (some (pys "Bob"))).2 = (resolveVoice stC6ex 7 none (some (pys "Bob"))).2
      ∧ (resolveVoice (resolveVoice stC6ex 7 none (some (pys "Bob"))).1 11 none
          (some (pys "Bob"))).1 = (resolveVoice stC6ex 7 none (some (pys "Bob"))).1)
    ∧ resolveVoice stC6empty 7 none (some (pys "Bob")) = (stC6empty, .dflt) := by
  exact ⟨C6_resolution_idempotent_and_empty_pool_default.1 stC6ex (pys "Bob") 7 11 (by decide),
    C6_resolution_idempotent_and_empty_pool_default.2 stC6empty (pys "Bob") 7 (by decide)
      (by decide) (by decide) (by decide)⟩

/-- Purging a user's queue entries does not touch the announcement config. -/
lemma get_announcement_text_clear_user (st : AppState) (o : Option PyStr) (b : Bool)
    (a : PyStr) (un : Option PyStr) :
    get_announcement_text (clear_user_from_queue st o b).1 a un
      = get_announcement_text st a un := by
  unfold clear_user_from_queue
  split
  · rfl
  · rfl

/-- Claim C5: for a message from a non-blocked user, with the auto-block scan
enabled and matching some keyword, the sender is blocked through the very
`clear_user_from_queue` purge-and-block call that manual `!block` uses —
before any command parsing, since the message text is arbitrary here — and
exactly one announcement utterance is placed at the front of the queue, ahead
of every utterance that survived the purge. -/
theorem C5_autoblock_same_path_and_front_announcement :
    ∀ (st : AppState) (u m0 : PyStr) (rand : Nat) (t : PyStr),
      u ∉ st.blocked → u ≠ [] →
      st.autoBlockEnabled = true →
      (findKeyword st.autoBlockKeywords (pyLower m0)).isSome = true →
      get_announcement_text st (pys "AUTOBLOCK") (some u) = some t →
      on_chat_message st u m0 rand
        = .ok ({ (clear_user_from_queue st (some u) true).1 with
                  queue := ⟨t, some st.announcementVoice, some (pys "__announcement__")⟩
                    :: (clear_user_from_queue st (some u) true).1.queue },
               (clear_user_from_queue st (some u) true).2)
      ∧ (clear_user_from_queue st (some u) true).1.queue
          = st.queue.filter (fun m => m.username != some u)
      ∧ u ∈ (clear_user_from_queue st (some u) true).1.blocked := by
  intro st u m0 rand t hb hu hab hks ht
  have htr : pyTruthy (some u) = true := pyTruthy_some_of_ne u hu
  obtain ⟨k, hk⟩ := Option.isSome_iff_exists.mp hks
  refine ⟨?_, ?_, ?_⟩
  · simp only [on_chat_message, hab, if_true, hk]
    simp only [hb, if_false, if_neg, queueAnnouncementFront,
      get_announcement_text_clear_user, ht]
    simp [hb]
    unfold clear_user_from_queue
    split
    · rfl
    · rfl
  · simp [clear_user_from_queue, htr]
  · by_cases hc : u ∈ st.blocked
    · simp [clear_user_from_queue, htr, hc]
    · simp [clear_user_from_queue, htr, hc]

/-- Concrete state for the C5 witness. -/
def stC5ex : AppState :=
  { stC2ex with
    blocked := [], autoBlockKeywords := [pys "", pys "BadWord"],
    announcements := [(pys "AUTOBLOCK", pys "was auto-blocked")] }

theorem C5_witness :
    on_chat_message stC5ex (pys "Bob") (pys "so badword huh") 3
      = .ok ({ (clear_user_from_queue stC5ex (some (pys "Bob")) true).1 with
                queue := ⟨pys "Bob was auto-blocked", some stC5ex.announcementVoice,
                          some (pys "__announcement__")⟩
                  :: (clear_user_from_queue stC5ex (some (pys "Bob")) true).1.queue },
             (clear_user_from_queue stC5ex (some (pys "Bob")) true).2)
    ∧ (clear_user_from_queue stC5ex (some (pys "Bob")) true).1.queue
        = stC5ex.queue.filter (fun m => m.username != some (pys "Bob"))
    ∧ pys "Bob" ∈ (clear_user_from_queue stC5ex (some (pys "Bob")) true).1.blocked :=
  C5_autoblock_same_path_and_front_announcement stC5ex (pys "Bob") (pys "so badword huh") 3
    (pys "Bob was auto-blocked") (by decide) (by decide) (by decide) (by decide) (by decide)

/-- Concrete state for C4: an admin, a pending queued utterance. -/
def stC4ex : AppState :=
  { stC2ex with
    blocked := [], currentlySpeaking := none,
    queue := [⟨pys "pending", none, some (pys "Bob")⟩] }

/-- Claim C4 counterexample: an admin's `"!tts stop"` only issues the backend
stop call (`force_stop_tts` → `audio_manager.stop()`); the pending speech
queue is NOT cleared — the queued utterance survives untouched, contradicting
the claim that the queue is cleared. -/
theorem C4_cx_admin_stop_leaves_queue :
    on_chat_message stC4ex (pys "Al") (pys "!tts stop") 0 = .ok (stC4ex, [Eff.stop])
    ∧ stC4ex.queue = [⟨pys "pending", none, some (pys "Bob")⟩] := by
  constructor
  · rfl
  · rfl

/-- Claim C4 (amended): `"{ttsPrefix} stop"` (case-insensitive) from a
non-admin does nothing at all; from an admin it issues the backend stop call,
halting in-flight speech — which the worker's 50 ms poll observes on its next
iteration — but leaves the pending queue untouched (only `!stop` clears the
queue). -/
theorem C4_tts_stop_semantics :
    (∀ (st : AppState) (u m0 : PyStr) (rand : Nat),
      u ∉ st.blocked →
      (if st.autoBlockEnabled then findKeyword st.autoBlockKeywords (pyLower m0)
       else none) = none →
      pyStrip (pyLower (pyStrip m0)) = pyLower (st.ttsPrefixWord ++ pys " stop") →
      on_chat_message st u m0 rand = .ok (st, if u ∈ st.admins then [Eff.stop] else []))
    ∧ (∀ (env : Nat → PollObs) (uname : Option PyStr) (t r : Nat),
        (env t).isSpeaking = false →
        waitLoop env uname t (r + 1) = (.completed, t)) := by
  constructor
  · intro st u m0 rand hb hscan hm
    simp only [on_chat_message, hscan, hm]
    by_cases hadm : u ∈ st.admins
    · simp [hb, hadm]
    · simp [hb, hadm]
  · intro env uname t r h
    simp [waitLoop, h]

theorem C4_witness :
    on_chat_message stC4ex (pys "Al") (pys "!TTS STOP") 0
      = .ok (stC4ex, if pys "Al" ∈ stC4ex.admins then [Eff.stop] else [])
    ∧ waitLoop (fun _ => ⟨false, [], none⟩) (some (pys "Bob")) 0 1200
        = (.completed, 0) :=
  ⟨C4_tts_stop_semantics.1 stC4ex (pys "Al") (pys "!TTS STOP") 0 (by decide) (by decide)
      (by decide),
   C4_tts_stop_semantics.2 (fun _ => ⟨false, [], none⟩) (some (pys "Bob")) 0 1199 rfl⟩

/-- Concrete state for C1: defaults, `v 0` mapped, Bob not blocked. -/
def stC1ex : AppState :=
  { stC2ex with blocked := [], currentlySpeaking := none, queue := [] }

/-- Claim C1 counterexample: `"/v 0 hello"` does not start with the TTS prefix
`"!tts "`, yet handling it enqueues the utterance `"hello"` with the mapped
voice — the non-prefixed voice-command path DOES cause speech, contradicting
the claim that it must never speak. -/
theorem C1_cx_nonprefixed_voice_command_speaks :
    on_chat_message stC1ex (pys "Bob") (pys "/v 0 hello") 0
      = .ok ({ stC1ex with
                queue := [⟨pys "hello", some (pys "Microsoft Sam"), some (pys "Bob")⟩] }, [])
    ∧ (stC1ex.ttsPrefixWord ++ [' ']).isPrefixOf (pys "/v 0 hello") = false := by
  constructor
  · rfl
  · rfl

/-- Claim C1 (amended): a message that starts with no TTS prefix, matches no
moderation command and no non-prefixed voice-command pattern is completely
ignored — no state change and no speech.  But a message matching the
non-prefixed `/v N text` voice-command pattern with a mapped command and
non-empty trailing text IS spoken: the trailing text is enqueued with the
mapped voice as a one-shot override. -/
theorem C1_plain_chat_ignored_and_voice_cmd_text_spoken :
    (∀ (st : AppState) (u m0 : PyStr) (rand : Nat),
      (if st.autoBlockEnabled then findKeyword st.autoBlockKeywords (pyLower m0)
       else none) = none →
      pyStrip (pyLower (pyStrip m0)) ≠ pyLower (st.ttsPrefixWord ++ pys " stop") →
      pyStrip (pyLower (pyStrip m0)) ≠ pys "!stop" →
      pyStrip (pyLower (pyStrip m0)) ≠ pys "!block add" →
      pyStrip (pyLower (pyStrip m0)) ≠ pys "!block" →
      pyStrip (pyLower (pyStrip m0)) ≠ pys "!admin add" →
      pyStrip (pyLower (pyStrip m0)) ≠ pys "!block clear" →
      (st.ttsPrefixWord ++ [' ']).isPrefixOf (pyStrip m0) = false →
      startsVNum (pyStrip m0) = false →
      slashTriggerHit st (pyStrip m0) = false →
      legacyVHit (pyStrip m0) = false →
      pyLookup (firstWord (pyStrip m0)) st.voiceCommands = none →
      on_chat_message st u m0 rand = .ok (st, []))
    ∧ (∀ (st : AppState) (u : PyStr) (rand : Nat) (v : PyStr),
      u ∉ st.blocked →
      (if st.autoBlockEnabled then findKeyword st.autoBlockKeywords (pyLower (pys "/v 0 hello"))
       else none) = none →
      st.privateMode = false →
      st.ttsPrefixWord = pys "!tts" →
      st.voiceToggleCommand = pys "/vt" →
      pyLookup (pys "v 0") st.voiceCommands = some v →
      on_chat_message st u (pys "/v 0 hello") rand
        = .ok (speakq st (pys "hello") (some v) (some u), [])) := by
  constructor
  · intro st u m0 rand hscan h1 h2 h3 h4 h5 h6 h7 h8 h9 h10 h11
    by_cases hb : u ∈ st.blocked
    · simp [on_chat_message, hb]
    · rw [on_chat_message_eq_fromBlockClear st u m0 rand hb hscan h1 h2 h3 h4 h5,
        chatFromBlockClear_eq_tail st u (pyStrip m0) rand h6,
        chatTail_ignore st u (pyStrip m0) rand h7 h8 h9 h10 h11]
  · intro st u rand v hb hscan hpm hpre htog hv
    rw [on_chat_message_eq_fromBlockClear st u (pys "/v 0 hello") rand hb hscan
        (by rw [hpre]; decide) (by decide) (by decide) (by decide) (by decide),
      chatFromBlockClear_eq_tail st u (pyStrip (pys "/v 0 hello")) rand (by decide)]
    have hstrip : pyStrip (pys "/v 0 hello") = pys "/v 0 hello" := by decide
    rw [hstrip]
    have c1 : ((pys "!tts") ++ [' ']).isPrefixOf (pys "/v 0 hello") = false := by decide
    have c2 : startsVNum (pys "/v 0 hello") = true := by decide
    simp only [chatTail, hpre, hpm, c1, c2, Bool.false_eq_true, if_false, Bool.false_and,
      if_true]
    have d1 : pyLstripSlash (pys "/vt") = pys "vt" := by decide
    have d2 : matchCmdNumText (pys "vt") (pys "/v 0 hello") = none := by decide
    have d3 : matchCmdNumText (pys "v") (pys "/v 0 hello") = some (pys "0", pys "hello") := by
      decide
    have d0 : (pys "/v 0 hello").head? = some '/' := by decide
    have hv' : pyLookup ('v' :: ' ' :: pys "0") st.voiceCommands = some v := hv
    simp only [process_voice_command, d0, htog, d1, d2, d3, hv', if_true]
    simp [speakq]
    intro h
    exact absurd h (by decide)

theorem C1_witness :
    on_chat_message stC1ex (pys "Bob") (pys "just plain chat") 0 = .ok (stC1ex, [])
    ∧ on_chat_message stC1ex (pys "Eve") (pys "/v 0 hello") 0
        = .ok (speakq stC1ex (pys "hello") (some (pys "Microsoft Sam")) (some (pys "Eve")), []) := by
  constructor
  · exact C1_plain_chat_ignored_and_voice_cmd_text_spoken.1 stC1ex (pys "Bob")
      (pys "just plain chat") 0 (by decide) (by decide) (by decide) (by decide) (by decide)
      (by decide) (by decide) (by decide) (by decide) (by decide) (by decide) (by decide)
  · exact C1_plain_chat_ignored_and_voice_cmd_text_spoken.2 stC1ex (pys "Eve") 0
      (pys "Microsoft Sam") (by decide) (by decide) (by decide) (by decide) (by decide)
      (by decide)

/-- The literal `"!stop"` can never be the lowercase of `"{prefix} stop"`, whatever the
configured prefix. -/
lemma bang_stop_ne_lower_stop (p : PyStr) : pys "!stop" ≠ pyLower (p ++ pys " stop") := by
  intro h
  cases p with
  | nil =>
    rw [List.nil_append, pyLower_space_stop] at h
    exact absurd h (by decide)
  | cons c t =>
    have hlen := congrArg List.length h
    simp only [pyLower, List.length_map, List.length_append, List.length_cons] at hlen
    have h5 : (pys "!stop").length = 5 := by decide
    have h5' : (pys " stop").length = 5 := by decide
    rw [h5, h5'] at hlen
    omega

/-- Concrete state for C3: the TTS prefix is configured as `"!admin"` and the
sender is not an admin. -/
def stC3ex : AppState :=
  { stC2ex with
    blocked := [], currentlySpeaking := none, queue := [],
    admins := [], ttsPrefixWord := pys "!admin" }

/-- Claim C3 counterexample: `"!admin add"` matches rule (4) exactly, yet from
a non-admin it is NOT terminal: with the TTS prefix configured as `"!admin"`
the very same message falls through to rule (6), is treated as a prefixed TTS
command, and the remainder `"add"` is enqueued for speech. -/
theorem C3_cx_admin_add_falls_through :
    pyStrip (pyLower (pyStrip (pys "!admin add"))) = pys "!admin add"
    ∧ on_chat_message stC3ex (pys "alice") (pys "!admin add") 0
        = .ok ({ stC3ex with
                  queue := [⟨pys "add", none, some (pys "alice")⟩],
                  lastSpeaker := some (pys "alice") }, [Eff.applyDefault]) := by
  constructor
  · rfl
  · rfl

/-- Claim C3 (amended): classification tries the rules in the claimed order
with first match winning — `{prefix} stop` (case-insensitive), `!stop`,
`!block`/`!block add`, `!admin add`, `!block clear`, then prefix / voice
command / ignore — EXCEPT that `!admin add` and `!block clear` from a
non-admin sender do not terminate processing: they fall through to the
remaining rules instead of being silently dropped at their own rule. -/
theorem C3_classification_order :
    ∀ (st : AppState) (u m0 : PyStr) (rand : Nat),
      u ∉ st.blocked →
      (if st.autoBlockEnabled then findKeyword st.autoBlockKeywords (pyLower m0)
       else none) = none →
      ((pyStrip (pyLower (pyStrip m0)) = pyLower (st.ttsPrefixWord ++ pys " stop") →
        on_chat_message st u m0 rand = .ok (st, if u ∈ st.admins then [Eff.stop] else []))
      ∧ (pyStrip (pyLower (pyStrip m0)) = pys "!stop" →
         on_chat_message st u m0 rand
           = .ok (if u ∈ st.admins then stop_all_speech st else (st, [])))
      ∧ ((pyStrip (pyLower (pyStrip m0)) = pys "!block add"
            ∨ pyStrip (pyLower (pyStrip m0)) = pys "!block") →
         u ∉ st.admins →
         on_chat_message st u m0 rand = .ok (st, []))
      ∧ (pyStrip (pyLower (pyStrip m0)) = pys "!admin add" → u ∉ st.admins →
         on_chat_message st u m0 rand = .ok (chatFromBlockClear st u (pyStrip m0) rand))
      ∧ (pyStrip (pyLower (pyStrip m0)) = pys "!block clear" → u ∉ st.admins →
         on_chat_message st u m0 rand = .ok (chatTail st u (pyStrip m0) rand))
      ∧ (pyStrip (pyLower (pyStrip m0)) ≠ pyLower (st.ttsPrefixWord ++ pys " stop") →
         pyStrip (pyLower (pyStrip m0)) ≠ pys "!stop" →
         pyStrip (pyLower (pyStrip m0)) ≠ pys "!block add" →
         pyStrip (pyLower (pyStrip m0)) ≠ pys "!block" →
         pyStrip (pyLower (pyStrip m0)) ≠ pys "!admin add" →
         on_chat_message st u m0 rand
           = .ok (chatFromBlockClear st u (pyStrip m0) rand))) := by
  intro st u m0 rand hb hscan
  refine ⟨?_, ?_, ?_, ?_, ?_, ?_⟩
  · intro hm
    simp only [on_chat_message, hscan, hm]
    by_cases hadm : u ∈ st.admins
    · simp [hb, hadm]
    · simp [hb, hadm]
  · intro hm
    have h1 : pys "!stop" ≠ pyLower (st.ttsPrefixWord ++ pys " stop") :=
      bang_stop_ne_lower_stop st.ttsPrefixWord
    simp only [on_chat_message, hscan, hm]
    by_cases hadm : u ∈ st.admins
    · simp [hb, hadm, h1]
    · simp [hb, hadm, h1]
  · intro hm hadm
    rcases hm with hm | hm
    · have h1 : pys "!block add" ≠ pyLower (st.ttsPrefixWord ++ pys " stop") :=
        ne_pyLower_append_stop _ st.ttsPrefixWord (by decide)
      have h2 : (pys "!block add" : PyStr) ≠ pys "!stop" := by decide
      simp only [on_chat_message, hscan, hm]
      simp [hb, hadm, h1, h2]
    · have h1 : pys "!block" ≠ pyLower (st.ttsPrefixWord ++ pys " stop") :=
        ne_pyLower_append_stop _ st.ttsPrefixWord (by decide)
      have h2 : (pys "!block" : PyStr) ≠ pys "!stop" := by decide
      simp only [on_chat_message, hscan, hm]
      simp [hb, hadm, h1, h2]
  · intro hm hadm
    have h1 : pys "!admin add" ≠ pyLower (st.ttsPrefixWord ++ pys " stop") :=
      ne_pyLower_append_stop _ st.ttsPrefixWord (by decide)
    have h2 : (pys "!admin add" : PyStr) ≠ pys "!stop" := by decide
    have h3 : (pys "!admin add" : PyStr) ≠ pys "!block add" := by decide
    have h4 : (pys "!admin add" : PyStr) ≠ pys "!block" := by decide
    simp only [on_chat_message, hscan, hm]
    simp [hb, hadm, h1, h2, h3, h4]
  · intro hm hadm
    rw [on_chat_message_eq_fromBlockClear st u m0 rand hb hscan
        (hm ▸ ne_pyLower_append_stop _ st.ttsPrefixWord (by decide))
        (by rw [hm]; decide) (by rw [hm]; decide) (by rw [hm]; decide) (by rw [hm]; decide),
      chatFromBlockClear_eq_tail_nonadmin st u (pyStrip m0) rand hadm]
  · intro h1 h2 h3 h4 h5
    rw [on_chat_message_eq_fromBlockClear st u m0 rand hb hscan h1 h2 h3 h4 h5]

theorem C3_witness :
    on_chat_message stC3ex (pys "alice") (pys "!admin add") 0
      = .ok (chatFromBlockClear stC3ex (pys "alice") (pyStrip (pys "!admin add")) 0)
    ∧ on_chat_message stC1ex (pys "Al") (pys "!stop") 0
        = .ok (if pys "Al" ∈ stC1ex.admins then stop_all_speech stC1ex else (stC1ex, [])) := by
  constructor
  · exact (C3_classification_order stC3ex (pys "alice") (pys "!admin add") 0 (by decide)
      (by decide)).2.2.2.1 (by decide) (by decide)
  · exact (C3_classification_order stC1ex (pys "Al") (pys "!stop") 0 (by decide)
      (by decide)).2.1 (by decide)

/-- After blocking via `clear_user_from_queue`, the target is on the blocked
list. -/
lemma clear_user_blocked_mem (st : AppState) (x : PyStr) (hx : x ≠ []) :
    x ∈ (clear_user_from_queue st (some x) true).1.blocked := by
  have htr := pyTruthy_some_of_ne x hx
  by_cases hc : x ∈ st.blocked
  · simp [clear_user_from_queue, htr, hc]
  · simp [clear_user_from_queue, htr, hc]

/-- Concrete state for C7's counterexample: Bob is mid-utterance but no
prefixed TTS message has ever been processed, so the `last_speaker` attribute
was never created. -/
def stC7ex : AppState :=
  { stC2ex with blocked := [], lastSpeaker := none }

/-- Claim C7 counterexample: an admin's `!block` while Bob is the
currently-speaking user does NOT block Bob when `last_speaker` was never
assigned — the handler's logging line reads the missing attribute first and
the whole handler dies with an `AttributeError` instead. -/
theorem C7_cx_block_crashes_without_last_speaker :
    stC7ex.currentlySpeaking = some (pys "Bob")
    ∧ on_chat_message stC7ex (pys "Al") (pys "!block") 0
        = .error (pys "AttributeError: last_speaker") := by
  constructor
  · rfl
  · rfl

/-- Claim C7 (amended): once some user has triggered prefixed TTS (so the
`last_speaker` attribute exists), an admin's `!block`/`!block add` blocks the
currently-speaking user when there is one, otherwise the last TTS speaker,
and never the issuing admin (a resolved target equal to the issuer blocks no
one); `!block clear` removes exactly the most recently blocked entry. -/
theorem C7_block_target_and_lifo_unblock :
    (∀ (st : AppState) (u m0 : PyStr) (rand : Nat) (ls : PyStr),
      u ∉ st.blocked →
      (if st.autoBlockEnabled then findKeyword st.autoBlockKeywords (pyLower m0)
       else none) = none →
      u ∈ st.admins →
      st.lastSpeaker = some ls →
      (pyStrip (pyLower (pyStrip m0)) = pys "!block add"
        ∨ pyStrip (pyLower (pyStrip m0)) = pys "!block") →
      ((∀ (cs : PyStr), st.currentlySpeaking = some cs → cs ≠ [] → cs ≠ u →
        on_chat_message st u m0 rand
          = .ok (queueAnnouncementFront (clear_user_from_queue st (some cs) true).1
                  (pys "BLOCK ADD") (some cs),
                 (clear_user_from_queue st (some cs) true).2)
        ∧ cs ∈ (clear_user_from_queue st (some cs) true).1.blocked)
      ∧ (pyTruthy st.currentlySpeaking = false → ls ≠ [] → ls ≠ u →
        on_chat_message st u m0 rand
          = .ok (queueAnnouncementFront (clear_user_from_queue st (some ls) true).1
                  (pys "BLOCK ADD") (some ls),
                 (clear_user_from_queue st (some ls) true).2)
        ∧ ls ∈ (clear_user_from_queue st (some ls) true).1.blocked)
      ∧ ((if pyTruthy st.currentlySpeaking then st.currentlySpeaking else some ls)
            = some u →
        on_chat_message st u m0 rand = .ok (st, []))))
    ∧ (∀ (st : AppState) (u m0 : PyStr) (rand : Nat) (pre : List PyStr) (lastU : PyStr),
        u ∉ st.blocked →
        (if st.autoBlockEnabled then findKeyword st.autoBlockKeywords (pyLower m0)
         else none) = none →
        u ∈ st.admins →
        pyStrip (pyLower (pyStrip m0)) = pys "!block clear" →
        st.blocked = pre ++ [lastU] →
        on_chat_message st u m0 rand
          = .ok (queueAnnouncementFront { st with blocked := pre } (pys "BLOCK REMOVE")
                  (some lastU), [])) := by
  constructor
  · intro st u m0 rand ls hb hscan hadm hls hm
    have hstep : on_chat_message st u m0 rand
        = (if pyStrip (pyLower (pyStrip m0)) = pys "!block add"
              ∨ pyStrip (pyLower (pyStrip m0)) = pys "!block" then
             (match st.lastSpeaker with
              | none => Except.error (pys "AttributeError: last_speaker")
              | some ls' =>
                let userToBlock : Option PyStr :=
                  if pyTruthy st.currentlySpeaking then st.currentlySpeaking else some ls'
                if pyTruthy userToBlock && userToBlock ≠ some u then
                  let r := clear_user_from_queue st userToBlock true
                  Except.ok (queueAnnouncementFront r.1 (pys "BLOCK ADD") userToBlock, r.2)
                else Except.ok (st, []))
           else Except.ok (st, [])) := by
      rcases hm with hm | hm
      · have h1 : pys "!block add" ≠ pyLower (st.ttsPrefixWord ++ pys " stop") :=
          ne_pyLower_append_stop _ st.ttsPrefixWord (by decide)
        have h2 : (pys "!block add" : PyStr) ≠ pys "!stop" := by decide
        simp only [on_chat_message, hscan, hm]
        simp [hb, hadm, h1, h2]
      · have h1 : pys "!block" ≠ pyLower (st.ttsPrefixWord ++ pys " stop") :=
          ne_pyLower_append_stop _ st.ttsPrefixWord (by decide)
        have h2 : (pys "!block" : PyStr) ≠ pys "!stop" := by decide
        simp only [on_chat_message, hscan, hm]
        simp [hb, hadm, h1, h2]
    refine ⟨?_, ?_, ?_⟩
    · intro cs hcs hcsne hcsu
      have htr : pyTruthy (some cs) = true := pyTruthy_some_of_ne cs hcsne
      refine ⟨?_, clear_user_blocked_mem st cs hcsne⟩
      rw [hstep, if_pos hm]
      simp only [hls, hcs, htr, if_true]
      simp [hcsu]
    · intro hcsf hlsne hlsu
      have htr : pyTruthy (some ls) = true := pyTruthy_some_of_ne ls hlsne
      refine ⟨?_, clear_user_blocked_mem st ls hlsne⟩
      rw [hstep, if_pos hm]
      simp only [hls, hcsf, Bool.false_eq_true, if_false]
      simp [htr, hlsu]
    · intro heq
      rw [hstep, if_pos hm]
      simp only [hls]
      rw [heq]
      simp
  · intro st u m0 rand pre lastU hb hscan hadm hm hpre
    rw [on_chat_message_eq_fromBlockClear st u m0 rand hb hscan
        (hm ▸ ne_pyLower_append_stop _ st.ttsPrefixWord (by decide))
        (by rw [hm]; decide) (by rw [hm]; decide) (by rw [hm]; decide) (by rw [hm]; decide)]
    simp only [chatFromBlockClear, hm, if_true]
    have hlen : 0 < st.blocked.length := by
      rw [hpre]
      simp
    have hlast : st.blocked.getLastD [] = lastU := by
      rw [hpre]
      exact List.getLastD_concat _ _ _
    have hdrop : st.blocked.dropLast = pre := by
      rw [hpre]
      exact List.dropLast_concat
    simp only [List.getLastD_eq_getLast?] at hlast
    simp [hadm, hlen, hlast, hdrop]

/-- Concrete state for the C7 witness's `!block clear` part. -/
def stC7d : AppState :=
  { stC2ex with blocked := [pys "X", pys "Y"] }

theorem C7_witness :
    (on_chat_message stC2ex (pys "Al") (pys "!block") 5
        = .ok (queueAnnouncementFront (clear_user_from_queue stC2ex (some (pys "Bob")) true).1
                (pys "BLOCK ADD") (some (pys "Bob")),
               (clear_user_from_queue stC2ex (some (pys "Bob")) true).2)
      ∧ pys "Bob" ∈ (clear_user_from_queue stC2ex (some (pys "Bob")) true).1.blocked)
    ∧ on_chat_message stC7d (pys "Al") (pys "!block clear") 5
        = .ok (queueAnnouncementFront { stC7d with blocked := [pys "X"] } (pys "BLOCK REMOVE")
                (some (pys "Y")), []) := by
  constructor
  · exact ((C7_block_target_and_lifo_unblock.1 stC2ex (pys "Al") (pys "!block") 5 (pys "Bob")
      (by decide) (by decide) (by decide) (by decide) (Or.inr (by decide))).1 (pys "Bob")
      (by decide) (by decide) (by decide))
  · exact C7_block_target_and_lifo_unblock.2 stC7d (pys "Al") (pys "!block clear") 5
      [pys "X"] (pys "Y") (by decide) (by decide) (by decide) (by decide) (by decide)

/-- Concrete state for C8: fresh session — nobody is speaking and no prefixed
TTS message has ever been processed (`last_speaker` attribute unset). -/
def stC8ex : AppState :=
  { stC2ex with blocked := [], currentlySpeaking := none, lastSpeaker := none, queue := [] }

/-- Claim C8 (code bug): `!block` from an admin with no current speaker and no
prior TTS speaker is supposed to be a silent no-op, but `__init__` only
creates the unused `last_speakers` dict and never `last_speaker`, so the
handler's first read of `self.last_speaker` raises `AttributeError` (caught
and logged as a callback error by the monitor loop) instead of no-opping.
The same command from a non-admin IS the claimed silent no-op. -/
theorem C8_no_target_block_raises :
    stC8ex.currentlySpeaking = none ∧ stC8ex.lastSpeaker = none
    ∧ on_chat_message stC8ex (pys "Al") (pys "!block") 0
        = .error (pys "AttributeError: last_speaker")
    ∧ on_chat_message stC8ex (pys "Eve") (pys "!block") 0 = .ok (stC8ex, []) := by
  refine ⟨rfl, rfl, rfl, rfl⟩

/-- Claim C10: the private-mode gate.  With private mode on, any non-admin
message that is not a moderation command is silently dropped, whether or not
it carries the TTS prefix or a voice-command pattern; the blocked-user check,
the auto-block scan and the admin moderation commands are all evaluated
before the gate and still take effect under private mode. -/
theorem C10_private_mode_gate :
    (∀ (st : AppState) (u m0 : PyStr) (rand : Nat),
      u ∉ st.blocked →
      (if st.autoBlockEnabled then findKeyword st.autoBlockKeywords (pyLower m0)
       else none) = none →
      st.privateMode = true → u ∉ st.admins →
      pyStrip (pyLower (pyStrip m0)) ≠ pyLower (st.ttsPrefixWord ++ pys " stop") →
      pyStrip (pyLower (pyStrip m0)) ≠ pys "!stop" →
      pyStrip (pyLower (pyStrip m0)) ≠ pys "!block add" →
      pyStrip (pyLower (pyStrip m0)) ≠ pys "!block" →
      pyStrip (pyLower (pyStrip m0)) ≠ pys "!admin add" →
      on_chat_message st u m0 rand = .ok (st, []))
    ∧ (∀ (st : AppState) (u m0 : PyStr) (rand : Nat),
        u ∈ st.blocked → on_chat_message st u m0 rand = .ok (st, []))
    ∧ (∀ (st : AppState) (u m0 : PyStr) (rand : Nat),
        u ∉ st.blocked → u ≠ [] → st.privateMode = true →
        st.autoBlockEnabled = true →
        (findKeyword st.autoBlockKeywords (pyLower m0)).isSome = true →
        on_chat_message st u m0 rand
          = .ok (queueAnnouncementFront (clear_user_from_queue st (some u) true).1
                  (pys "AUTOBLOCK") (some u),
                 (clear_user_from_queue st (some u) true).2)
        ∧ u ∈ (clear_user_from_queue st (some u) true).1.blocked)
    ∧ (∀ (st : AppState) (u m0 : PyStr) (rand : Nat),
        u ∉ st.blocked →
        (if st.autoBlockEnabled then findKeyword st.autoBlockKeywords (pyLower m0)
         else none) = none →
        st.privateMode = true → u ∈ st.admins →
        pyStrip (pyLower (pyStrip m0)) = pys "!stop" →
        on_chat_message st u m0 rand = .ok (stop_all_speech st)) := by
  refine ⟨?_, ?_, ?_, ?_⟩
  · intro st u m0 rand hb hscan hpm hadm h1 h2 h3 h4 h5
    rw [on_chat_message_eq_fromBlockClear st u m0 rand hb hscan h1 h2 h3 h4 h5,
      chatFromBlockClear_eq_tail_nonadmin st u (pyStrip m0) rand hadm,
      chatTail_private st u (pyStrip m0) rand hpm hadm]
  · intro st u m0 rand hb
    simp [on_chat_message, hb]
  · intro st u m0 rand hb hu hpm hab hks
    have htr : pyTruthy (some u) = true := pyTruthy_some_of_ne u hu
    obtain ⟨k, hk⟩ := Option.isSome_iff_exists.mp hks
    constructor
    · simp only [on_chat_message, hab, if_true, hk]
      simp [hb]
    · exact clear_user_blocked_mem st u hu
  · intro st u m0 rand hb hscan hpm hadm hm
    have h1 : pys "!stop" ≠ pyLower (st.ttsPrefixWord ++ pys " stop") :=
      bang_stop_ne_lower_stop st.ttsPrefixWord
    simp only [on_chat_message, hscan, hm]
    simp [hb, hadm, h1]

/-- Concrete state for the C10 witness: private mode on. -/
def stC10ex : AppState :=
  { stC2ex with blocked := [], currentlySpeaking := none, queue := [], privateMode := true }

theorem C10_witness :
    on_chat_message stC10ex (pys "Bob") (pys "!tts hello") 0 = .ok (stC10ex, [])
    ∧ on_chat_message stC10ex (pys "Al") (pys "!stop") 0 = .ok (stop_all_speech stC10ex) := by
  constructor
  · exact C10_private_mode_gate.1 stC10ex (pys "Bob") (pys "!tts hello") 0 (by decide)
      (by decide) (by decide) (by decide) (by decide) (by decide) (by decide) (by decide)
      (by decide)
  · exact C10_private_mode_gate.2.2.2 stC10ex (pys "Al") (pys "!stop") 0 (by decide)
      (by decide) (by decide) (by decide) (by decide)

/-- How one worker iteration behaves for a SAPI5-dispatched utterance (no
explicit voice, no preference, random assignment off), by wait-loop outcome:
completion and timeout emit no stop; a blocked user costs one explicit stop
plus the three purge retries and re-filters the queue; an out-of-band cursor
change costs one stop. -/
lemma workerProcessOne_sapi_cases (st : AppState) (m : Msg) (rand : Nat)
    (env : Nat → PollObs) (u : PyStr)
    (hun : m.username = some u) (hune : u ≠ [])
    (hmb : memOptUser m.username st.blocked = false)
    (hv : m.voice = none)
    (hp : pyLookup u st.userVoicePreferences = none)
    (hr : st.randomVoiceEnabled = false) :
    ((waitLoop env (some u) 0 1200).1 = .completed →
      workerProcessOne st m rand env
        = ({ st with currentlySpeaking := none }, [Eff.applyDefault, Eff.sapiSpeak m.text]))
    ∧ ((waitLoop env (some u) 0 1200).1 = .timeout →
      workerProcessOne st m rand env
        = ({ st with currentlySpeaking := none }, [Eff.applyDefault, Eff.sapiSpeak m.text]))
    ∧ ((waitLoop env (some u) 0 1200).1 = .blockedStop →
      workerProcessOne st m rand env
        = ({ st with
              currentlySpeaking := none,
              queue := st.queue.filter (fun mm => mm.username != some u) },
           [Eff.applyDefault, Eff.sapiSpeak m.text, Eff.stopAllSpeech, Eff.stopAllSpeech,
            Eff.stopAllSpeech, Eff.stopAllSpeech]))
    ∧ ((waitLoop env (some u) 0 1200).1 = .interruptedStop →
      workerProcessOne st m rand env
        = ({ st with currentlySpeaking :=
              (env (waitLoop env (some u) 0 1200).2).currentlySpeakingNow },
           [Eff.applyDefault, Eff.sapiSpeak m.text, Eff.stopAllSpeech])) := by
  have htr2 : pyTruthyStr u = true := pyTruthy_some_of_ne u hune
  have hmb' : memOptUser (some u) st.blocked = false := hun ▸ hmb
  refine ⟨?_, ?_, ?_, ?_⟩
  · intro hcase
    simp [workerProcessOne, hun, hmb', hv, hp, hr, htr2, resolveVoice, pyTruthy, hcase]
  · intro hcase
    simp [workerProcessOne, hun, hmb', hv, hp, hr, htr2, resolveVoice, pyTruthy, hcase]
  · intro hcase
    simp [workerProcessOne, hun, hmb', hv, hp, hr, htr2, resolveVoice, pyTruthy, hcase,
      clear_user_from_queue]
  · intro hcase
    simp [workerProcessOne, hun, hmb', hv, hp, hr, htr2, resolveVoice, pyTruthy, hcase]

/-- Concrete state for C9: Bob unblocked, no preference, random off. -/
def stC9ex : AppState :=
  { stC2ex with blocked := [], currentlySpeaking := none, queue := [] }

/-- The C9 poll environment: a backend that never stops reporting busy, with
no out-of-band block or cursor change. -/
def envBusyC9 : Nat → PollObs := fun _ => ⟨true, [], some (pys "Bob")⟩

/-- Claim C9 counterexample: with a backend that never stops reporting
`is_speaking` and no out-of-band events, the wait loop runs its entire
1200-poll (60 s) budget and falls out with `timeout` — and the worker then
simply advances, emitting NO backend stop call, contradicting the claim that
hitting the ceiling forces a stop. -/
theorem C9_cx_ceiling_no_forced_stop :
    waitLoop envBusyC9 (some (pys "Bob")) 0 1200 = (.timeout, 1200)
    ∧ workerProcessOne stC9ex ⟨pys "hi", none, some (pys "Bob")⟩ 7 envBusyC9
      = ({ stC9ex with currentlySpeaking := none },
         [Eff.applyDefault, Eff.sapiSpeak (pys "hi")]) := by
  have hbusy : ∀ i, (envBusyC9 i).isSpeaking = true ∧
      memOptUser (some (pys "Bob")) (envBusyC9 i).blockedNow = false ∧
      (envBusyC9 i).currentlySpeakingNow = some (pys "Bob") := by
    intro i
    exact ⟨rfl, rfl, rfl⟩
  have hw := waitLoop_timeout_of_busy envBusyC9 (some (pys "Bob")) hbusy 1200 0
  have hw' : waitLoop envBusyC9 (some (pys "Bob")) 0 1200 = (.timeout, 1200) := by
    simpa using hw
  refine ⟨hw', ?_⟩
  exact (workerProcessOne_sapi_cases stC9ex ⟨pys "hi", none, some (pys "Bob")⟩ 7 envBusyC9
    (pys "Bob") rfl (by decide) rfl rfl rfl rfl).2.1 (by rw [hw'])

/-- Claim C9 (amended): for a SAPI5-dispatched utterance the worker polls
`is_speaking()` every 50 ms for at most 1200 polls (60 s); seeing the backend
quiet ends the wait; seeing the speaking user blocked, or the speaking cursor
changed out of band, forces an immediate backend stop (the blocked case also
re-purging the user's queue); but when the 60 s ceiling is hit the worker
advances WITHOUT forcing a stop. -/
theorem C9_wait_loop_semantics :
    (∀ (env : Nat → PollObs) (uname : Option PyStr) (t r : Nat),
      (env t).isSpeaking = false → waitLoop env uname t (r + 1) = (.completed, t))
    ∧ (∀ (env : Nat → PollObs) (uname : Option PyStr) (t r : Nat),
      (env t).isSpeaking = true → memOptUser uname (env t).blockedNow = true →
      waitLoop env uname t (r + 1) = (.blockedStop, t))
    ∧ (∀ (env : Nat → PollObs) (uname : Option PyStr) (t r : Nat),
      (env t).isSpeaking = true → memOptUser uname (env t).blockedNow = false →
      (env t).currentlySpeakingNow ≠ uname →
      waitLoop env uname t (r + 1) = (.interruptedStop, t))
    ∧ (∀ (env : Nat → PollObs) (uname : Option PyStr),
      (∀ i, (env i).isSpeaking = true ∧ memOptUser uname (env i).blockedNow = false ∧
        (env i).currentlySpeakingNow = uname) →
      waitLoop env uname 0 1200 = (.timeout, 1200))
    ∧ (∀ (st : AppState) (m : Msg) (rand : Nat) (env : Nat → PollObs) (u : PyStr),
      m.username = some u → u ≠ [] →
      memOptUser m.username st.blocked = false →
      m.voice = none →
      pyLookup u st.userVoicePreferences = none →
      st.randomVoiceEnabled = false →
      ((waitLoop env (some u) 0 1200).1 = .timeout →
        workerProcessOne st m rand env
          = ({ st with currentlySpeaking := none }, [Eff.applyDefault, Eff.sapiSpeak m.text]))
      ∧ ((waitLoop env (some u) 0 1200).1 = .blockedStop →
        workerProcessOne st m rand env
          = ({ st with
                currentlySpeaking := none,
                queue := st.queue.filter (fun mm => mm.username != some u) },
             [Eff.applyDefault, Eff.sapiSpeak m.text, Eff.stopAllSpeech, Eff.stopAllSpeech,
              Eff.stopAllSpeech, Eff.stopAllSpeech]))
      ∧ ((waitLoop env (some u) 0 1200).1 = .interruptedStop →
        workerProcessOne st m rand env
          = ({ st with currentlySpeaking :=
                (env (waitLoop env (some u) 0 1200).2).currentlySpeakingNow },
             [Eff.applyDefault, Eff.sapiSpeak m.text, Eff.stopAllSpeech]))) := by
  refine ⟨?_, ?_, ?_, ?_, ?_⟩
  · intro env uname t r hs
    simp [waitLoop, hs]
  · intro env uname t r hs hb
    simp [waitLoop, hs, hb]
  · intro env uname t r hs hb hc
    simp [waitLoop, hs, hb, hc]
  · intro env uname hbusy
    simpa using waitLoop_timeout_of_busy env uname hbusy 1200 0
  · intro st m rand env u hun hune hmb hv hp hr
    have h := workerProcessOne_sapi_cases st m rand env u hun hune hmb hv hp hr
    exact ⟨h.2.1, h.2.2.1, h.2.2.2⟩

/-- The C9 witness environment: busy for three polls with Bob's name on the
blocked list from poll 0, forcing the blocked-stop path immediately. -/
def envBlockedC9 : Nat → PollObs := fun _ => ⟨true, [pys "Bob"], some (pys "Bob")⟩

theorem C9_witness :
    waitLoop envBlockedC9 (some (pys "Bob")) 0 1200 = (.blockedStop, 0)
    ∧ workerProcessOne stC9ex ⟨pys "hi", none, some (pys "Bob")⟩ 7 envBlockedC9
      = ({ stC9ex with
            currentlySpeaking := none,
            queue := stC9ex.queue.filter (fun mm => mm.username != some (pys "Bob")) },
         [Eff.applyDefault, Eff.sapiSpeak (pys "hi"), Eff.stopAllSpeech, Eff.stopAllSpeech,
          Eff.stopAllSpeech, Eff.stopAllSpeech]) := by
  have hw : waitLoop envBlockedC9 (some (pys "Bob")) 0 1200 = (.blockedStop, 0) :=
    C9_wait_loop_semantics.2.1 envBlockedC9 (some (pys "Bob")) 0 1199 rfl (by decide)
  refine ⟨hw, ?_⟩
  exact (C9_wait_loop_semantics.2.2.2.2 stC9ex ⟨pys "hi", none, some (pys "Bob")⟩ 7
    envBlockedC9 (pys "Bob") rfl (by decide) rfl rfl rfl rfl).2.1 (by rw [hw])
